import Mathlib

/-!
Shallow embedding of the untrusted code execution core of the repository:
the function execute_code and the LANGUAGE_CONFIG table of src/main.py
(lines 63 to 247).

Subprocess behaviour, the filesystem and the clock are modelled by an
explicit environment record: the embedded code decides which external calls
it makes and with which arguments, and how it classifies each possible
result; the environment decides what each external call returns.  A trace
records the externally visible calls so that properties about commands,
timeouts, stdin payloads and cleanup can be stated and settled.  Exceptions
are modelled by their str message; time stamps and limits are rationals in
seconds.
-/

/-- The closed set of statuses appearing in the dictionaries returned by
execute_code. -/
inductive Status where
  | accepted
  | compilationError
  | runtimeError
  | timeLimitExceeded
  | evaluationError
  deriving DecidableEq

/-- The dictionary returned by execute_code: a status, the optional output
and error fields, and the runtime in seconds.  A field absent from the
returned dictionary is modelled as none. -/
structure Outcome where
  status : Status
  output : Option String := none
  error : Option String := none
  runtime : Rat
  deriving DecidableEq

/-- One entry of the LANGUAGE_CONFIG table of src/main.py. -/
structure LangConfig where
  extension : String
  command : String
  compile : Option (String → List String)
  run : String → List String
  time_limit : Rat

/-- Model of the python str.lower method, as applied to the language
identifiers (ascii). -/
def py_lower (s : String) : String :=
  String.mk (s.data.map Char.toLower)

/-- Whether the first list is an initial segment of the second. -/
def beginsWith : List Char → List Char → Bool
  | [], _ => true
  | _ :: _, [] => false
  | p :: ps, c :: cs => p == c && beginsWith ps cs

/-- Fuel-indexed scan replacing every non-overlapping occurrence of pat,
left to right, exactly as the python str.replace method does. -/
def replaceFuel (pat repl : List Char) : Nat → List Char → List Char
  | 0, l => l
  | _ + 1, [] => []
  | fuel + 1, c :: cs =>
    if beginsWith pat (c :: cs) then
      repl ++ replaceFuel pat repl fuel ((c :: cs).drop pat.length)
    else c :: replaceFuel pat repl fuel cs

/-- Model of the python str.replace method for a nonempty pattern: replace
every non-overlapping occurrence, scanning left to right. -/
def py_replace (s pat repl : String) : String :=
  if pat.data = [] then s
  else String.mk (replaceFuel pat.data repl.data s.data.length s.data)

/-- The characters removed by the python str.strip method (the ascii
whitespace characters). -/
def py_isspace (c : Char) : Bool :=
  c == ' ' || c == '\t' || c == '\n' || c == '\r' || c == '\x0b' || c == '\x0c'

/-- Model of the python str.strip method: remove whitespace from both
ends. -/
def py_strip (s : String) : String :=
  String.mk (((s.data.dropWhile py_isspace).reverse.dropWhile py_isspace).reverse)

/-- Whether the first character of a string is the path separator. -/
def strStartsWithSlash (s : String) : Bool :=
  s.data.headD ' ' == '/'

/-- Whether the last character of a string is the path separator. -/
def strEndsWithSlash (s : String) : Bool :=
  s.data.getLastD ' ' == '/'

/-- Model of os.path.join for the calls made by execute_code, following the
posixpath rules for one relative or absolute second component: an absolute
second component wins, a first component that is empty or already ends with
the separator is concatenated directly, and otherwise one separator is
inserted between the two components. -/
def ospath_join (a b : String) : String :=
  if strStartsWithSlash b then b
  else if a == "" || strEndsWithSlash a then a ++ b
  else a ++ "/" ++ b

/-- One step of the scan of a path for os.path.basename: a separator resets
the accumulated final component. -/
def basenameStep (acc : List Char) (c : Char) : List Char :=
  if c = '/' then [] else acc ++ [c]

/-- Model of os.path.basename: the part of the path after the last
separator. -/
def ospath_basename (s : String) : String :=
  String.mk (s.data.foldl basenameStep [])

/-- Helper for os.path.dirname: the characters strictly before the last
separator, or none when the list has no separator. -/
def dirnameAux : List Char → Option (List Char)
  | [] => none
  | c :: cs =>
    match dirnameAux cs with
    | some rest => some (c :: rest)
    | none => if c = '/' then some [] else none

/-- Model of os.path.dirname for the paths built by execute_code (a scratch
directory joined with a separator-free file name): the part of the path
before the last separator, empty when there is none. -/
def ospath_dirname (s : String) : String :=
  String.mk ((dirnameAux s.data).getD [])

/-- The python entry of LANGUAGE_CONFIG (src/main.py lines 64 to 70). -/
def pythonConfig : LangConfig where
  extension := ".py"
  command := "python3"
  compile := none
  run := fun filename => ["python3", filename]
  time_limit := 2

/-- The java entry of LANGUAGE_CONFIG (src/main.py lines 71 to 77): the
class name passed to the java command is the base name of the source file
with every occurrence of .java removed. -/
def javaConfig : LangConfig where
  extension := ".java"
  command := "java"
  compile := some (fun filename => ["javac", filename])
  run := fun classname =>
    ["java", "-cp", ospath_dirname classname,
     py_replace (ospath_basename classname) ".java" ""]
  time_limit := 4

/-- The cpp entry of LANGUAGE_CONFIG (src/main.py lines 78 to 84). -/
def cppConfig : LangConfig where
  extension := ".cpp"
  command := "g++"
  compile := some (fun filename => ["g++", filename, "-o", py_replace filename ".cpp" ""])
  run := fun filename => [py_replace filename ".cpp" ""]
  time_limit := 3

/-- The javascript entry of LANGUAGE_CONFIG (src/main.py lines 85 to 91). -/
def javascriptConfig : LangConfig where
  extension := ".js"
  command := "node"
  compile := none
  run := fun filename => ["node", filename]
  time_limit := Rat.mk' 5 2

/-- Model of LANGUAGE_CONFIG.get applied to the lowered language
identifier (src/main.py line 150). -/
def LANGUAGE_CONFIG_get (l : String) : Option LangConfig :=
  if l = "python" then some pythonConfig
  else if l = "java" then some javaConfig
  else if l = "cpp" then some cppConfig
  else if l = "javascript" then some javascriptConfig
  else none

/-- Result of the compile subprocess call, subprocess.run with a timeout
(src/main.py lines 175 to 182): the call can raise TimeoutExpired, raise
some other exception such as a spawn failure, or complete with an exit code
and the captured streams. -/
inductive CompileEvent where
  | timeoutExpired (msg : String)
  | raises (msg : String)
  | completes (returncode : Int) (stdout stderr : String)

/-- Result of waiting on the run subprocess, process.communicate with a
timeout (src/main.py lines 209 to 212): TimeoutExpired, some other
exception, or exit with a code and the captured streams. -/
inductive RunEvent where
  | timeoutExpired
  | raises (msg : String)
  | exited (returncode : Int) (stdout stderr : String)

/-- The environment of one call: what every external interaction returns.
tempDirResult models tempfile.mkdtemp, writeSourceExn a possible exception
while writing or chmodding the source file, writeInputExn a possible
exception while writing the javascript input file, spawnExn a possible
exception from subprocess.Popen, elapsed the measured difference of
time.time readings around the run, and rmtreeFails whether the final
removal of the scratch directory would fail. -/
structure Env where
  tempDirResult : Except String String
  writeSourceExn : Option String
  writeInputExn : Option String
  compileEvent : CompileEvent
  spawnExn : Option String
  runEvent : RunEvent
  elapsed : Rat
  rmtreeFails : Bool

/-- Model of shutil.rmtree: with ignore_errors set a failing removal is
swallowed, without it the failure raises. -/
def shutil_rmtree (path : String) (ignore_errors : Bool) (env : Env) :
    Except String Unit :=
  if ignore_errors = false ∧ env.rmtreeFails = true then
    .error ("rmtree failed: " ++ path)
  else .ok ()

/-- The externally visible calls made during one execution.  Each field
records the arguments of the corresponding library call of src/main.py:
the pair in compileCall and communicateCall carries the timeout argument,
the Bool in popenCall is the shell flag, and the Bool in rmtreeCall is the
ignore_errors flag. -/
structure Trace where
  sourceFileWritten : Option (String × String) := none
  inputFileWritten : Option (String × String) := none
  compileCall : Option (List String × Rat) := none
  popenCall : Option (List String × Bool) := none
  communicateCall : Option (Option String × Rat) := none
  killed : Bool := false
  workspaceCreated : Option String := none
  rmtreeCall : Option (String × Bool) := none
  deriving DecidableEq

/-- Either a value returned to the caller or an exception propagating past
the call boundary. -/
inductive ExecResult where
  | raised (msg : String)
  | returned (o : Outcome)
  deriving DecidableEq

/-- The run step of execute_code (src/main.py lines 191 to 237): build the
run command, replacing it for javascript by a shell command with input
redirection tokens, spawn the process, feed the stdin payload (None for
javascript) and wait with the profile time limit, then classify: a timeout
kills the process and yields Time Limit Exceeded with the profile limit as
runtime, a nonzero exit yields Runtime Error with both streams and the
measured elapsed time, a zero exit yields Accepted with the trimmed output
and the measured elapsed time. -/
def run_phase (language input_data : String) (lang_config : LangConfig)
    (filename : String) (input_file : Option String) (env : Env)
    (t : Trace) : ExecResult × Trace :=
  let run_command :=
    match input_file with
    | some f =>
      if py_lower language = "javascript" then ["node", filename, "<", f]
      else lang_config.run filename
    | none => lang_config.run filename
  let t := { t with
    popenCall := some (run_command, if py_lower language = "javascript" then true else false) }
  match env.spawnExn with
  | some msg => (.raised msg, t)
  | none =>
    let comm_input : Option String :=
      if py_lower language = "javascript" then none else some input_data
    let t := { t with communicateCall := some (comm_input, lang_config.time_limit) }
    match env.runEvent with
    | .raises msg => (.raised msg, t)
    | .timeoutExpired =>
      (.returned { status := .timeLimitExceeded, runtime := lang_config.time_limit },
       { t with killed := true })
    | .exited returncode out err =>
      let runtime := env.elapsed
      if returncode ≠ 0 then
        (.returned { status := .runtimeError, output := some out,
                     error := some err, runtime := runtime }, t)
      else
        (.returned { status := .accepted, output := some (py_strip out),
                     runtime := runtime }, t)

/-- The body of the try block of execute_code (src/main.py lines 159 to
237): write the source text to the file named source plus the profile
extension inside the workspace, write the input file when the language is
javascript, run the compile step with the profile time limit when the
profile declares one and stop with Compilation Error on a nonzero exit,
otherwise proceed to the run step.  The caller supplied time_limit
argument is accepted and, exactly as in the source, never used. -/
def execute_body (code language input_data : String) (time_limit : Rat)
    (lang_config : LangConfig) (temp_dir : String) (env : Env) :
    ExecResult × Trace :=
  let filename := ospath_join temp_dir ("source" ++ lang_config.extension)
  match env.writeSourceExn with
  | some msg => (.raised msg, {})
  | none =>
    let t : Trace := { sourceFileWritten := some (filename, code) }
    let input_file : Option String :=
      if py_lower language = "javascript" then some (ospath_join temp_dir "input.txt")
      else none
    match (if py_lower language = "javascript" then env.writeInputExn else none) with
    | some msg => (.raised msg, t)
    | none =>
      let t := { t with inputFileWritten := input_file.map (fun f => (f, input_data)) }
      match lang_config.compile with
      | some compileCmd =>
        let t := { t with
          compileCall := some (compileCmd filename, lang_config.time_limit) }
        match env.compileEvent with
        | .timeoutExpired msg => (.raised msg, t)
        | .raises msg => (.raised msg, t)
        | .completes returncode _out err =>
          if returncode ≠ 0 then
            (.returned { status := .compilationError, error := some err,
                         runtime := 0 }, t)
          else
            run_phase language input_data lang_config filename input_file env t
      | none => run_phase language input_data lang_config filename input_file env t

/-- The function execute_code of src/main.py (lines 148 to 247): lookup of
the lowered language identifier with an unsupported-language ValueError
before any workspace or process activity, creation of the scratch
workspace whose failure propagates, the guarded body, the except clause
mapping any exception raised by the body to an Evaluation Error outcome
with the exception message and runtime zero, and the finally clause
removing the workspace with errors ignored. -/
def execute_code (code language input_data : String) (time_limit : Rat)
    (env : Env) : ExecResult × Trace :=
  match LANGUAGE_CONFIG_get (py_lower language) with
  | none => (.raised ("Unsupported language: " ++ language), {})
  | some lang_config =>
    match env.tempDirResult with
    | .error msg => (.raised msg, {})
    | .ok temp_dir =>
      let r := execute_body code language input_data time_limit lang_config temp_dir env
      let t : Trace := { r.2 with workspaceCreated := some temp_dir,
                                  rmtreeCall := some (temp_dir, true) }
      match shutil_rmtree temp_dir true env with
      | .error msg => (.raised msg, t)
      | .ok _ =>
        match r.1 with
        | .raised msg =>
          (.returned { status := .evaluationError, error := some msg,
                       runtime := 0 }, t)
        | .returned o => (.returned o, t)

/-- A fully successful environment used by the concrete witnesses. -/
def goodEnv : Env where
  tempDirResult := .ok "/tmp/work"
  writeSourceExn := none
  writeInputExn := none
  compileEvent := .completes 0 "" ""
  spawnExn := none
  runEvent := .exited 0 "hello\n" ""
  elapsed := Rat.mk' 1 10
  rmtreeFails := false

/-- A successful lookup in the language table yields exactly one of the
four static profiles. -/
theorem config_cases {l : String} {cfg : LangConfig}
    (h : LANGUAGE_CONFIG_get l = some cfg) :
    (l = "python" ∧ cfg = pythonConfig) ∨ (l = "java" ∧ cfg = javaConfig) ∨
    (l = "cpp" ∧ cfg = cppConfig) ∨ (l = "javascript" ∧ cfg = javascriptConfig) := by
  unfold LANGUAGE_CONFIG_get at h
  split_ifs at h with h1 h2 h3 h4
  · exact Or.inl ⟨h1, (Option.some_injective _ h).symm⟩
  · exact Or.inr (Or.inl ⟨h2, (Option.some_injective _ h).symm⟩)
  · exact Or.inr (Or.inr (Or.inl ⟨h3, (Option.some_injective _ h).symm⟩))
  · exact Or.inr (Or.inr (Or.inr ⟨h4, (Option.some_injective _ h).symm⟩))

/-- The except clause of execute_code: a raised exception becomes an
Evaluation Error outcome carrying the exception message and runtime
zero. -/
def exceptClause : ExecResult → ExecResult
  | .raised msg =>
    .returned { status := .evaluationError, error := some msg, runtime := 0 }
  | .returned o => .returned o

/-- Under a supported language and a successfully created workspace,
execute_code is the guarded body with the except and finally clauses
applied. -/
theorem execute_code_of_supported
    (code language input_data : String) (tl : Rat) (env : Env)
    (cfg : LangConfig) (d : String)
    (hsup : LANGUAGE_CONFIG_get (py_lower language) = some cfg)
    (hdir : env.tempDirResult = .ok d) :
    execute_code code language input_data tl env =
      (exceptClause (execute_body code language input_data tl cfg d env).1,
       { (execute_body code language input_data tl cfg d env).2 with
         workspaceCreated := some d, rmtreeCall := some (d, true) }) := by
  simp only [execute_code, hsup, hdir]
  rcases hb : execute_body code language input_data tl cfg d env with ⟨res, tr⟩
  cases res <;> rfl

/-- A separator-free character list is appended verbatim by the basename
scan. -/
theorem foldl_basenameStep_no_sep : ∀ (l acc : List Char),
    (∀ c ∈ l, c ≠ '/') → l.foldl basenameStep acc = acc ++ l
  | [], _, _ => by simp
  | c :: cs, acc, h => by
    have hc : c ≠ '/' := h c (by simp)
    have hrest : ∀ x ∈ cs, x ≠ '/' := fun x hx => h x (by simp [hx])
    simp only [List.foldl_cons, basenameStep, if_neg hc]
    rw [foldl_basenameStep_no_sep cs (acc ++ [c]) hrest]
    simp

/-- A string without separator does not start with one. -/
theorem strStartsWithSlash_eq_false_of_no_sep (s : String)
    (hs : ∀ c ∈ s.data, c ≠ '/') : strStartsWithSlash s = false := by
  unfold strStartsWithSlash
  cases h : s.data with
  | nil => rfl
  | cons c cs =>
    have hc : c ≠ '/' := hs c (by simp [h])
    simp [List.headD, hc]

/-- Joining a directory that is nonempty and does not end in the separator
with a separator-free relative name yields a path whose base name is that
relative name. -/
theorem ospath_basename_join (d s : String)
    (hd0 : (d == "") = false) (hd1 : strEndsWithSlash d = false)
    (hs : ∀ c ∈ s.data, c ≠ '/') :
    ospath_basename (ospath_join d s) = s := by
  unfold ospath_join
  rw [strStartsWithSlash_eq_false_of_no_sep s hs, hd0, hd1]
  simp only [Bool.or_self, Bool.false_eq_true, if_false]
  unfold ospath_basename
  have hdata : (d ++ "/" ++ s).data = d.data ++ ('/' :: s.data) := by
    simp [String.data_append]
  rw [hdata, List.foldl_append, List.foldl_cons]
  have hreset : basenameStep (d.data.foldl basenameStep []) '/' = [] := by
    simp [basenameStep]
  rw [hreset, foldl_basenameStep_no_sep s.data [] hs]
  rfl

/-- C1: the claim says a caller-provided positive time limit bounds the
wait for the run subprocess, the profile default applying only when the
caller limit is absent.  The code contradicts this: with language python
and caller limit 1 second, the communicate call receives the profile
default of 2 seconds as its timeout for every caller limit, so the wait is
not bounded by the caller limit; the time_limit parameter of execute_code
is never read. -/
theorem caller_time_limit_ignored :
    (∀ tl : Rat, (execute_code "print(input())" "python" "hi" tl goodEnv).2.communicateCall
      = some (some "hi", pythonConfig.time_limit))
    ∧ pythonConfig.time_limit = 2
    ∧ ¬ (pythonConfig.time_limit ≤ (1 : Rat)) :=
  ⟨fun _ => rfl, by decide, by decide⟩

/-- C3: if the run subprocess does not finish within the enforced time
limit, execute_code kills it and returns Time Limit Exceeded with runtime
equal to that limit; the wait itself was bounded by the same limit passed
as the communicate timeout. -/
theorem timeout_kills_and_returns_tle
    (code language input_data d co ce : String) (tl : Rat) (env : Env)
    (cfg : LangConfig)
    (hsup : LANGUAGE_CONFIG_get (py_lower language) = some cfg)
    (hdir : env.tempDirResult = .ok d)
    (hws : env.writeSourceExn = none)
    (hwi : env.writeInputExn = none)
    (hc : env.compileEvent = .completes 0 co ce)
    (hsp : env.spawnExn = none)
    (hrun : env.runEvent = .timeoutExpired) :
    (execute_code code language input_data tl env).1
      = .returned { status := .timeLimitExceeded, runtime := cfg.time_limit }
    ∧ (execute_code code language input_data tl env).2.killed = true
    ∧ (execute_code code language input_data tl env).2.communicateCall
      = some ((if py_lower language = "javascript" then none else some input_data),
              cfg.time_limit) := by
  rcases config_cases hsup with ⟨hl, hcfg⟩ | ⟨hl, hcfg⟩ | ⟨hl, hcfg⟩ | ⟨hl, hcfg⟩ <;>
    subst hcfg <;>
    refine ⟨?_, ?_, ?_⟩ <;>
    simp [execute_code, execute_body, run_phase, LANGUAGE_CONFIG_get, exceptClause,
          hl, hdir, hws, hwi, hc, hsp, hrun, shutil_rmtree,
          pythonConfig, javaConfig, cppConfig, javascriptConfig]

/-- Witness for the time limit exceeded theorem at a concrete python
call. -/
theorem timeout_kills_and_returns_tle_witness :
    (execute_code "while True: pass" "python" "hi" 1
        { goodEnv with runEvent := .timeoutExpired }).1
      = .returned { status := .timeLimitExceeded, runtime := pythonConfig.time_limit }
    ∧ (execute_code "while True: pass" "python" "hi" 1
        { goodEnv with runEvent := .timeoutExpired }).2.killed = true
    ∧ (execute_code "while True: pass" "python" "hi" 1
        { goodEnv with runEvent := .timeoutExpired }).2.communicateCall
      = some ((if py_lower "python" = "javascript" then none else some "hi"),
              pythonConfig.time_limit) :=
  timeout_kills_and_returns_tle "while True: pass" "python" "hi" "/tmp/work" "" "" 1
    { goodEnv with runEvent := .timeoutExpired } pythonConfig rfl rfl rfl rfl rfl rfl rfl

/-- C4: if the profile declares a compile step and the compile subprocess
exits non-zero, execute_code returns Compilation Error carrying the
captured compiler stderr and runtime zero, and the run step is never
attempted: no run process is spawned and no communicate call happens. -/
theorem compile_failure_stops_before_run
    (code language input_data d co ce : String) (tl : Rat) (env : Env)
    (cfg : LangConfig) (rc : Int) (f : String → List String)
    (hsup : LANGUAGE_CONFIG_get (py_lower language) = some cfg)
    (hcomp : cfg.compile = some f)
    (hdir : env.tempDirResult = .ok d)
    (hws : env.writeSourceExn = none)
    (hwi : env.writeInputExn = none)
    (hc : env.compileEvent = .completes rc co ce)
    (hrc : rc ≠ 0) :
    (execute_code code language input_data tl env).1
      = .returned { status := .compilationError, error := some ce, runtime := 0 }
    ∧ (execute_code code language input_data tl env).2.popenCall = none
    ∧ (execute_code code language input_data tl env).2.communicateCall = none := by
  rcases config_cases hsup with ⟨hl, hcfg⟩ | ⟨hl, hcfg⟩ | ⟨hl, hcfg⟩ | ⟨hl, hcfg⟩ <;>
    subst hcfg
  · exact absurd hcomp (by simp [pythonConfig])
  · refine ⟨?_, ?_, ?_⟩ <;>
      simp [execute_code, execute_body, run_phase, LANGUAGE_CONFIG_get, exceptClause,
            hl, hdir, hws, hwi, hc, hrc, shutil_rmtree, javaConfig]
  · refine ⟨?_, ?_, ?_⟩ <;>
      simp [execute_code, execute_body, run_phase, LANGUAGE_CONFIG_get, exceptClause,
            hl, hdir, hws, hwi, hc, hrc, shutil_rmtree, cppConfig]
  · exact absurd hcomp (by simp [javascriptConfig])

/-- Witness for the compilation error theorem at a concrete cpp call. -/
theorem compile_failure_stops_before_run_witness :
    (execute_code "int main((" "cpp" "hi" 1
        { goodEnv with compileEvent := .completes 1 "" "missing paren" }).1
      = .returned { status := .compilationError, error := some "missing paren",
                    runtime := 0 }
    ∧ (execute_code "int main((" "cpp" "hi" 1
        { goodEnv with compileEvent := .completes 1 "" "missing paren" }).2.popenCall
      = none
    ∧ (execute_code "int main((" "cpp" "hi" 1
        { goodEnv with compileEvent := .completes 1 "" "missing paren" }).2.communicateCall
      = none :=
  compile_failure_stops_before_run "int main((" "cpp" "hi" "/tmp/work" "" "missing paren" 1
    { goodEnv with compileEvent := .completes 1 "" "missing paren" } cppConfig 1
    (fun filename => ["g++", filename, "-o", py_replace filename ".cpp" ""])
    rfl rfl rfl rfl rfl rfl (by decide)

/-- C5: when the run subprocess exits within the limit, a non-zero exit
code yields Runtime Error with the stdout produced so far, the stderr, and
the measured elapsed wall-clock runtime, while a zero exit code yields
Accepted with the stdout trimmed of surrounding whitespace and the
measured elapsed runtime. -/
theorem run_exit_classification
    (code language input_data d co ce out err : String) (tl : Rat) (env : Env)
    (cfg : LangConfig) (rc : Int)
    (hsup : LANGUAGE_CONFIG_get (py_lower language) = some cfg)
    (hdir : env.tempDirResult = .ok d)
    (hws : env.writeSourceExn = none)
    (hwi : env.writeInputExn = none)
    (hc : env.compileEvent = .completes 0 co ce)
    (hsp : env.spawnExn = none)
    (hrun : env.runEvent = .exited rc out err) :
    (rc ≠ 0 → (execute_code code language input_data tl env).1
      = .returned { status := .runtimeError, output := some out,
                    error := some err, runtime := env.elapsed })
    ∧ (rc = 0 → (execute_code code language input_data tl env).1
      = .returned { status := .accepted, output := some (py_strip out),
                    runtime := env.elapsed }) := by
  rcases config_cases hsup with ⟨hl, hcfg⟩ | ⟨hl, hcfg⟩ | ⟨hl, hcfg⟩ | ⟨hl, hcfg⟩ <;>
    subst hcfg <;>
    refine ⟨fun h => ?_, fun h => ?_⟩ <;>
    simp [execute_code, execute_body, run_phase, LANGUAGE_CONFIG_get, exceptClause,
          hl, hdir, hws, hwi, hc, hsp, hrun, h, shutil_rmtree,
          pythonConfig, javaConfig, cppConfig, javascriptConfig]

/-- Witness for the run classification theorem: a zero exit at a concrete
python call yields Accepted with trimmed output. -/
theorem run_exit_classification_witness :
    (execute_code "print(input())" "python" "hi" 1
        { goodEnv with runEvent := .exited 0 "  hi  \n" "" }).1
      = .returned { status := .accepted, output := some (py_strip "  hi  \n"),
                    runtime := ({ goodEnv with
                      runEvent := .exited 0 "  hi  \n" "" } : Env).elapsed } :=
  (run_exit_classification "print(input())" "python" "hi" "/tmp/work" "" "" "  hi  \n" "" 1
    { goodEnv with runEvent := .exited 0 "  hi  \n" "" } pythonConfig 0
    rfl rfl rfl rfl rfl rfl rfl).2 rfl

/-- C2 counterexample: at a concrete javascript call the run command is
not the interpreter applied to the source file (it carries shell
redirection tokens naming the input file), and the stdin payload is not
fed to the run subprocess: the communicate input is none. -/
theorem javascript_command_and_stdin_diverge :
    (execute_code "code" "javascript" "hello\n" 10 goodEnv).2.popenCall
      = some (["node", "/tmp/work/source.js", "<", "/tmp/work/input.txt"], true)
    ∧ javascriptConfig.run "/tmp/work/source.js" = ["node", "/tmp/work/source.js"]
    ∧ (["node", "/tmp/work/source.js", "<", "/tmp/work/input.txt"] : List String)
        ≠ ["node", "/tmp/work/source.js"]
    ∧ (execute_code "code" "javascript" "hello\n" 10 goodEnv).2.communicateCall
      = some (none, javascriptConfig.time_limit)
    ∧ (none : Option String) ≠ some "hello\n" :=
  ⟨by decide, by decide, by decide, by decide, by decide⟩

/-- The run step records the Popen command and shell flag it was given,
whatever the environment then does. -/
theorem run_phase_popenCall (language input_data : String)
    (lang_config : LangConfig) (filename : String) (input_file : Option String)
    (env : Env) (t : Trace) :
    (run_phase language input_data lang_config filename input_file env t).2.popenCall
      = some ((match input_file with
               | some f => if py_lower language = "javascript"
                           then ["node", filename, "<", f]
                           else lang_config.run filename
               | none => lang_config.run filename),
              if py_lower language = "javascript" then true else false) := by
  unfold run_phase
  cases hsp : env.spawnExn <;> cases hre : env.runEvent <;>
    simp [hsp, hre] <;> split_ifs <;> rfl

/-- When the spawn succeeds, the run step records the communicate call
with its stdin payload (none for javascript) and the profile time limit as
timeout, whatever the wait then returns. -/
theorem run_phase_communicateCall (language input_data : String)
    (lang_config : LangConfig) (filename : String) (input_file : Option String)
    (env : Env) (t : Trace) (hsp : env.spawnExn = none) :
    (run_phase language input_data lang_config filename input_file env t).2.communicateCall
      = some ((if py_lower language = "javascript" then none else some input_data),
              lang_config.time_limit) := by
  unfold run_phase
  cases hre : env.runEvent <;> simp [hsp, hre] <;> split_ifs <;> rfl

/-- The run step does not change the record of the written input file. -/
theorem run_phase_inputFileWritten (language input_data : String)
    (lang_config : LangConfig) (filename : String) (input_file : Option String)
    (env : Env) (t : Trace) :
    (run_phase language input_data lang_config filename input_file env t).2.inputFileWritten
      = t.inputFileWritten := by
  unfold run_phase
  cases hsp : env.spawnExn <;> cases hre : env.runEvent <;>
    simp [hsp, hre] <;> split_ifs <;> rfl

/-- The run step does not change the record of the written source file. -/
theorem run_phase_sourceFileWritten (language input_data : String)
    (lang_config : LangConfig) (filename : String) (input_file : Option String)
    (env : Env) (t : Trace) :
    (run_phase language input_data lang_config filename input_file env t).2.sourceFileWritten
      = t.sourceFileWritten := by
  unfold run_phase
  cases hsp : env.spawnExn <;> cases hre : env.runEvent <;>
    simp [hsp, hre] <;> split_ifs <;> rfl

/-- C2 (amended): for python, java and cpp the run command is the profile
run template applied to the source path and the stdin payload is fed to
the run subprocess with the profile time limit as the wait bound; for
javascript the constructed command carries shell redirection tokens naming
the workspace input file, the payload is written to that input file, and
none is fed to the stdin pipe. -/
theorem run_command_and_stdin_by_language
    (code language input_data d co ce : String) (tl : Rat) (env : Env)
    (cfg : LangConfig)
    (hsup : LANGUAGE_CONFIG_get (py_lower language) = some cfg)
    (hdir : env.tempDirResult = .ok d)
    (hws : env.writeSourceExn = none)
    (hwi : env.writeInputExn = none)
    (hc : env.compileEvent = .completes 0 co ce)
    (hsp : env.spawnExn = none) :
    (py_lower language ≠ "javascript" →
      (execute_code code language input_data tl env).2.popenCall
        = some (cfg.run (ospath_join d ("source" ++ cfg.extension)), false)
      ∧ (execute_code code language input_data tl env).2.communicateCall
        = some (some input_data, cfg.time_limit))
    ∧ (py_lower language = "javascript" →
      (execute_code code language input_data tl env).2.popenCall
        = some (["node", ospath_join d ("source" ++ cfg.extension), "<",
                 ospath_join d "input.txt"], true)
      ∧ (execute_code code language input_data tl env).2.communicateCall
        = some (none, cfg.time_limit)
      ∧ (execute_code code language input_data tl env).2.inputFileWritten
        = some (ospath_join d "input.txt", input_data)) := by
  rcases config_cases hsup with ⟨hl, hcfg⟩ | ⟨hl, hcfg⟩ | ⟨hl, hcfg⟩ | ⟨hl, hcfg⟩ <;>
    subst hcfg <;>
    rw [execute_code_of_supported code language input_data tl env _ d hsup hdir] <;>
    refine ⟨fun h => ?_, fun h => ?_⟩ <;>
    first
      | (rw [hl] at h; exact absurd h (by decide))
      | (refine ⟨?_, ?_⟩ <;>
          simp [execute_body, hl, hws, hwi, hc, hsp,
                run_phase_popenCall, run_phase_communicateCall, run_phase_inputFileWritten,
                pythonConfig, javaConfig, cppConfig, javascriptConfig])
      | (refine ⟨?_, ?_, ?_⟩ <;>
          simp [execute_body, hl, hws, hwi, hc, hsp,
                run_phase_popenCall, run_phase_communicateCall, run_phase_inputFileWritten,
                pythonConfig, javaConfig, cppConfig, javascriptConfig])

/-- Witness for the run command theorem at a concrete python call. -/
theorem run_command_and_stdin_by_language_witness :
    (execute_code "print(input())" "python" "hi" 1 goodEnv).2.popenCall
      = some (pythonConfig.run (ospath_join "/tmp/work" ("source" ++ pythonConfig.extension)),
              false)
    ∧ (execute_code "print(input())" "python" "hi" 1 goodEnv).2.communicateCall
      = some (some "hi", pythonConfig.time_limit) :=
  (run_command_and_stdin_by_language "print(input())" "python" "hi" "/tmp/work" "" "" 1
    goodEnv pythonConfig rfl rfl rfl rfl rfl rfl).1 (by decide)

/-- C6: with a supported language and a successfully created workspace,
execute_code never raises: it always returns an outcome, and any exception
raised inside the guarded body is returned as Evaluation Error with the
exception message and runtime zero. -/
theorem no_raise_after_workspace_created
    (code language input_data : String) (tl : Rat) (env : Env)
    (cfg : LangConfig) (d : String)
    (hsup : LANGUAGE_CONFIG_get (py_lower language) = some cfg)
    (hdir : env.tempDirResult = .ok d) :
    (∃ o, (execute_code code language input_data tl env).1 = .returned o)
    ∧ (∀ msg, (execute_body code language input_data tl cfg d env).1 = .raised msg →
        (execute_code code language input_data tl env).1
          = .returned { status := .evaluationError, error := some msg,
                        runtime := 0 }) := by
  rw [execute_code_of_supported code language input_data tl env cfg d hsup hdir]
  constructor
  · rcases hb : (execute_body code language input_data tl cfg d env).1 with msg | o
    · exact ⟨{ status := .evaluationError, error := some msg, runtime := 0 },
        by simp [exceptClause, hb]⟩
    · exact ⟨o, by simp [exceptClause, hb]⟩
  · intro msg hb
    simp [exceptClause, hb]

/-- Witness for the no-raise theorem: a source write failure at a concrete
python call is returned as Evaluation Error. -/
theorem no_raise_after_workspace_created_witness :
    (execute_code "x" "python" "hi" 1
        { goodEnv with writeSourceExn := some "disk full" }).1
      = .returned { status := .evaluationError, error := some "disk full",
                    runtime := 0 } :=
  (no_raise_after_workspace_created "x" "python" "hi" 1
      { goodEnv with writeSourceExn := some "disk full" } pythonConfig "/tmp/work"
      rfl rfl).2 "disk full" (by decide)

/-- C7 counterexample: with the supported language python and an
environment in which creating the scratch workspace fails, execute_code
raises even though the language identifier matches a profile, so raising
does not happen exactly on unsupported language identifiers. -/
theorem raise_with_supported_language_on_mkdtemp_failure :
    (execute_code "x" "python" "" 1
        { goodEnv with tempDirResult := .error "mkdtemp failed" }).1
      = .raised "mkdtemp failed"
    ∧ (LANGUAGE_CONFIG_get (py_lower "python")).isSome = true :=
  ⟨by decide, by decide⟩

/-- C7 (amended): execute_code raises the unsupported-language error, with
an empty trace (no workspace created, no compile call, no run process
spawned), exactly when the lowered language identifier matches no profile;
any other raise to the caller can only be the failure to create the
scratch workspace itself. -/
theorem unsupported_language_raise_characterization
    (code language input_data : String) (tl : Rat) (env : Env) :
    (LANGUAGE_CONFIG_get (py_lower language) = none →
      execute_code code language input_data tl env
        = (.raised ("Unsupported language: " ++ language), {}))
    ∧ (∀ msg, (execute_code code language input_data tl env).1 = .raised msg →
        LANGUAGE_CONFIG_get (py_lower language) = none ∨
          env.tempDirResult = .error msg) := by
  constructor
  · intro h
    simp [execute_code, h]
  · intro msg hr
    rcases hcfg : LANGUAGE_CONFIG_get (py_lower language) with _ | cfg
    · exact Or.inl rfl
    · rcases hd : env.tempDirResult with m | dd
      · simp only [execute_code, hcfg, hd] at hr
        exact Or.inr (congrArg Except.error (ExecResult.raised.inj hr))
      · rw [execute_code_of_supported code language input_data tl env cfg dd hcfg hd] at hr
        rcases hb : (execute_body code language input_data tl cfg dd env).1 with m | o <;>
          simp [exceptClause, hb] at hr

/-- Witness for the unsupported language theorem at the identifier
brainfuck: the raise happens with an empty trace. -/
theorem unsupported_language_raise_characterization_witness :
    execute_code "x" "brainfuck" "" 1 goodEnv
      = (.raised ("Unsupported language: " ++ "brainfuck"), {}) :=
  (unsupported_language_raise_characterization "x" "brainfuck" "" 1 goodEnv).1 rfl

/-- C8: whenever the scratch workspace is created, the trace of the call
records its removal with the ignore_errors flag set, whatever the
environment does afterwards, and with that flag the removal never
raises. -/
theorem workspace_always_removed
    (code language input_data : String) (tl : Rat) (env : Env)
    (cfg : LangConfig) (d : String)
    (hsup : LANGUAGE_CONFIG_get (py_lower language) = some cfg)
    (hdir : env.tempDirResult = .ok d) :
    (execute_code code language input_data tl env).2.rmtreeCall = some (d, true)
    ∧ shutil_rmtree d true env = .ok () := by
  rw [execute_code_of_supported code language input_data tl env cfg d hsup hdir]
  exact ⟨rfl, rfl⟩

/-- Witness for the workspace removal theorem at a concrete python
call. -/
theorem workspace_always_removed_witness :
    (execute_code "x" "python" "hi" 1 goodEnv).2.rmtreeCall = some ("/tmp/work", true)
    ∧ shutil_rmtree "/tmp/work" true goodEnv = .ok () :=
  workspace_always_removed "x" "python" "hi" 1 goodEnv pythonConfig "/tmp/work" rfl rfl

/-- C9: if the compile subprocess exceeds the profile time limit it was
given, the TimeoutExpired it raises is handled by the outer except clause:
execute_code returns Evaluation Error carrying that exception message and
runtime zero, not Compilation Error and not Time Limit Exceeded, and no
run process is spawned; the trace shows the compile call received the
profile time limit as its timeout. -/
theorem compile_timeout_yields_evaluation_error
    (code language input_data d msg : String) (tl : Rat) (env : Env)
    (cfg : LangConfig) (f : String → List String)
    (hsup : LANGUAGE_CONFIG_get (py_lower language) = some cfg)
    (hcomp : cfg.compile = some f)
    (hdir : env.tempDirResult = .ok d)
    (hws : env.writeSourceExn = none)
    (hwi : env.writeInputExn = none)
    (hc : env.compileEvent = .timeoutExpired msg) :
    (execute_code code language input_data tl env).1
      = .returned { status := .evaluationError, error := some msg, runtime := 0 }
    ∧ (execute_code code language input_data tl env).2.compileCall
      = some (f (ospath_join d ("source" ++ cfg.extension)), cfg.time_limit)
    ∧ (execute_code code language input_data tl env).2.popenCall = none := by
  rcases config_cases hsup with ⟨hl, hcfg⟩ | ⟨hl, hcfg⟩ | ⟨hl, hcfg⟩ | ⟨hl, hcfg⟩ <;>
    subst hcfg
  · exact absurd hcomp (by simp [pythonConfig])
  · have hf : (fun filename => ["javac", filename] : String → List String) = f :=
      Option.some_injective _ hcomp
    subst hf
    refine ⟨?_, ?_, ?_⟩ <;>
      simp [execute_code, execute_body, run_phase, LANGUAGE_CONFIG_get, exceptClause,
            hl, hdir, hws, hwi, hc, shutil_rmtree, javaConfig]
  · have hf : (fun filename => ["g++", filename, "-o", py_replace filename ".cpp" ""] :
        String → List String) = f :=
      Option.some_injective _ hcomp
    subst hf
    refine ⟨?_, ?_, ?_⟩ <;>
      simp [execute_code, execute_body, run_phase, LANGUAGE_CONFIG_get, exceptClause,
            hl, hdir, hws, hwi, hc, shutil_rmtree, cppConfig]
  · exact absurd hcomp (by simp [javascriptConfig])

/-- Witness for the compile timeout theorem at a concrete java call. -/
theorem compile_timeout_yields_evaluation_error_witness :
    (execute_code "class A {}" "java" "hi" 1
        { goodEnv with compileEvent := .timeoutExpired "compile timed out" }).1
      = .returned { status := .evaluationError, error := some "compile timed out",
                    runtime := 0 }
    ∧ (execute_code "class A {}" "java" "hi" 1
        { goodEnv with compileEvent := .timeoutExpired "compile timed out" }).2.compileCall
      = some ((fun filename => ["javac", filename])
                (ospath_join "/tmp/work" ("source" ++ javaConfig.extension)),
              javaConfig.time_limit)
    ∧ (execute_code "class A {}" "java" "hi" 1
        { goodEnv with compileEvent := .timeoutExpired "compile timed out" }).2.popenCall
      = none :=
  compile_timeout_yields_evaluation_error "class A {}" "java" "hi" "/tmp/work"
    "compile timed out" 1
    { goodEnv with compileEvent := .timeoutExpired "compile timed out" }
    javaConfig (fun filename => ["javac", filename]) rfl rfl rfl rfl rfl rfl

/-- Whenever the source file write succeeds, the trace records the source
text written to the file named source plus the profile extension inside
the workspace, whatever the environment does afterwards. -/
theorem execute_body_sourceFileWritten (code language input_data : String)
    (tl : Rat) (cfg : LangConfig) (d : String) (env : Env)
    (hws : env.writeSourceExn = none) :
    (execute_body code language input_data tl cfg d env).2.sourceFileWritten
      = some (ospath_join d ("source" ++ cfg.extension), code) := by
  unfold execute_body
  simp only [hws]
  cases hwi2 : (if py_lower language = "javascript" then env.writeInputExn else none) with
  | some m => simp [hwi2]
  | none =>
    simp only [hwi2]
    cases hcomp : cfg.compile with
    | none => simp [hcomp, run_phase_sourceFileWritten]
    | some f =>
      simp only [hcomp]
      cases hce : env.compileEvent <;>
        simp [hce, run_phase_sourceFileWritten] <;>
        split_ifs <;>
        simp [run_phase_sourceFileWritten]

/-- C10: the source text is always written to the file named source plus
the profile extension inside the workspace, whose base name is therefore
exactly source followed by the extension; for java the run command applied
to that path invokes the class named source, regardless of the submitted
source text. -/
theorem source_filename_fixed_and_java_class_source
    (code language input_data : String) (tl : Rat) (env : Env)
    (cfg : LangConfig) (d : String)
    (hsup : LANGUAGE_CONFIG_get (py_lower language) = some cfg)
    (hdir : env.tempDirResult = .ok d)
    (hws : env.writeSourceExn = none)
    (hd0 : (d == "") = false) (hd1 : strEndsWithSlash d = false) :
    (execute_code code language input_data tl env).2.sourceFileWritten
      = some (ospath_join d ("source" ++ cfg.extension), code)
    ∧ ospath_basename (ospath_join d ("source" ++ cfg.extension))
      = "source" ++ cfg.extension
    ∧ (py_lower language = "java" →
        cfg.run (ospath_join d ("source" ++ cfg.extension))
          = ["java", "-cp",
             ospath_dirname (ospath_join d ("source" ++ cfg.extension)),
             "source"]) := by
  refine ⟨?_, ?_, ?_⟩
  · rw [execute_code_of_supported code language input_data tl env cfg d hsup hdir]
    exact execute_body_sourceFileWritten code language input_data tl cfg d env hws
  · rcases config_cases hsup with ⟨hl, hcfg⟩ | ⟨hl, hcfg⟩ | ⟨hl, hcfg⟩ | ⟨hl, hcfg⟩ <;>
      subst hcfg <;>
      exact ospath_basename_join d _ hd0 hd1 (by decide)
  · intro hj
    rcases config_cases hsup with ⟨hl, hcfg⟩ | ⟨hl, hcfg⟩ | ⟨hl, hcfg⟩ | ⟨hl, hcfg⟩ <;>
      subst hcfg
    · rw [hl] at hj; exact absurd hj (by decide)
    · have hb := ospath_basename_join d ("source" ++ javaConfig.extension) hd0 hd1
        (by decide)
      simp only [javaConfig] at hb ⊢
      rw [hb]
      have hcls : py_replace ("source" ++ ".java") ".java" "" = "source" := by decide
      rw [hcls]
    · rw [hl] at hj; exact absurd hj (by decide)
    · rw [hl] at hj; exact absurd hj (by decide)

/-- Witness for the source file name theorem at a concrete java call. -/
theorem source_filename_fixed_and_java_class_source_witness :
    (execute_code "public class Main {}" "java" "hi" 1 goodEnv).2.sourceFileWritten
      = some (ospath_join "/tmp/work" ("source" ++ javaConfig.extension),
              "public class Main {}")
    ∧ ospath_basename (ospath_join "/tmp/work" ("source" ++ javaConfig.extension))
      = "source" ++ javaConfig.extension
    ∧ (py_lower "java" = "java" →
        javaConfig.run (ospath_join "/tmp/work" ("source" ++ javaConfig.extension))
          = ["java", "-cp",
             ospath_dirname (ospath_join "/tmp/work" ("source" ++ javaConfig.extension)),
             "source"]) :=
  source_filename_fixed_and_java_class_source "public class Main {}" "java" "hi" 1
    goodEnv javaConfig "/tmp/work" rfl rfl rfl rfl rfl
